import Mathlib

/-!
Verification of the AIOPedia page-resolution and lazy-content-loading state
machine (src/aiopedia/aiopedia.py), as a shallow embedding.

Modelling conventions:
* The HTTP layer is an `Oracle`: a deterministic function from (endpoint,
  title-or-pageid query) to the already-JSON-decoded fields the code reads.
  JSON path extraction and the BeautifulSoup HTML-to-text reduction are
  external collaborators (spec section 1) and are part of the oracle.
* Object attribute mutation becomes explicit state passing on `WPState`;
  attributes that may be unset are `Option` fields (`none` = attribute
  absent).  Python truthiness tests (`if not getattr(self, x, False)`) are
  modelled by `truthyS` / `truthyNat`.
* Each operation returns its result, the new state, and the list of HTTP
  requests it issued, in order.
* The redirect recursion in `WikiPage.__load` (which re-runs
  `self.__init__`) is modelled with explicit fuel; running out of fuel
  yields the artificial result `LoadError.outOfFuel`.
* `asyncio.run_coroutine_threadsafe` fire-and-forgets a coroutine on the
  event loop; on the single event-loop thread the coroutine cannot run
  before the scheduling call returns.  In `__init__` the returned future is
  discarded, so the constructor (`wikiPage`) hands the caller the
  partially initialized state and the scheduled `__load`'s outcome — kept
  as the separate `resolve` / `loadAux` component — is never surfaced: an
  exception raised there is swallowed.  In the synchronous properties
  `revision_id` / `parent_id` the same convention applies: the returned
  value reads the attribute as it was *before* the scheduled `content`
  fetch; the scheduled fetch's state and request effects happen afterwards
  and are accounted in the returned state and log.
-/

/-- HTTP sessions are opaque identifiers. -/
abbrev Session := Nat

/-- The module-level default session: the `session=aiohttp.ClientSession()`
default argument of `WikiPage.__init__` is evaluated once at definition
time, so all constructions that omit `session` share this one object. -/
def defaultSession : Session := 0

/-- Builds `"https://{locale}.wikipedia.org/w/api.php?action=query&format=json"`. -/
def endpointFor (locale : String) : String :=
  "https://" ++ locale ++ ".wikipedia.org/w/api.php?action=query&format=json"

/-- A query is addressed either by `titles=` or by `pageids=`.
Page ids are kept as strings (they are JSON object keys in the response). -/
inductive TitleOrId where
  | byTitle (t : String)
  | byId (p : String)
deriving DecidableEq, Repr

/-- Python truthiness of an optional string attribute:
`getattr(self, x, False)` is truthy iff the attribute is set and nonempty. -/
def truthyS : Option String → Bool
  | none => false
  | some s => !s.isEmpty

/-- Python truthiness of an optional integer attribute. -/
def truthyNat : Option Nat → Bool
  | none => false
  | some n => n != 0

/-- One entry of `query['redirects']` / `query['normalized']`:
a `{'from': ..., 'to': ...}` mapping. -/
structure RedirectEntry where
  from_ : String
  to_ : String
deriving DecidableEq, Repr

/-- The fields of `query['pages'][page_id]` that `__load` reads. -/
structure PageData where
  /-- Whether `'missing' in page`. -/
  missing : Bool
  /-- Whether `'pageprops' in page` (the query asks `ppprop=disambiguation`). -/
  pageprops : Bool
  title : String
  fullurl : String
deriving DecidableEq, Repr

/-- The fields of the `info|pageprops` response that `__load` reads:
`page_id = list(query['pages'].keys())[0]`, the page record under that key,
and the optional first entries of `query['redirects']` / `query['normalized']`. -/
structure InfoQuery where
  firstPageId : String
  page : PageData
  redirects : Option RedirectEntry
  normalized : Option RedirectEntry
deriving DecidableEq, Repr

/-- The HTTP boundary: for each endpoint kind, the already-extracted response
fields.  `liAnchors` is the BeautifulSoup pipeline of the disambiguation
branch (find all `li`, drop `tocsection` ones, collect anchor text);
`extract`, `revid`, `parentid` are the three fields read from the single
`prop=extracts|revisions` content response. -/
structure Oracle where
  info : String → TitleOrId → InfoQuery
  revisionsHtml : String → TitleOrId → String
  liAnchors : String → List String
  extract : String → TitleOrId → String
  revid : String → TitleOrId → Nat
  parentid : String → TitleOrId → Nat
  introExtract : String → TitleOrId → String

/-- The HTTP requests the modelled code can issue, in the order made. -/
inductive Request where
  /-- The query `prop=info|pageprops&inprop=url&ppprop=disambiguation&redirects=`. -/
  | infoQuery (endpoint : String) (q : TitleOrId)
  /-- The query `prop=revisions&rvprop=content&rvparse=&rvlimit=1`. -/
  | revisionsHtml (endpoint : String) (q : TitleOrId)
  /-- The query `prop=extracts|revisions&explaintext=&rvprop=ids`. -/
  | extractsRevisions (endpoint : String) (q : TitleOrId)
  /-- The query `prop=extracts&explaintext=&exintro=`. -/
  | extractsIntro (endpoint : String) (q : TitleOrId)
  /-- one step of `continued_query` -/
  | listing (endpoint : String) (token : Option Nat)
deriving DecidableEq, Repr

/-- Errors raised during construction / resolution. -/
inductive LoadError where
  /-- Raised as `PageError`. -/
  | pageError (idOrTitle : String)
  /-- Raised as `RedirectError`. -/
  | redirectError (title : String)
  /-- Raised as `DisambiguationError(title, may_refer_to)`. -/
  | disambiguationError (title : String) (mayReferTo : List String)
  /-- a failed `assert ... , ODD_ERROR_MESSAGE` -/
  | oddError
  /-- Raised as `ValueError("Either a Title or a Page ID myst be specified.")`. -/
  | valueError
  /-- Raised as `AttributeError` from reading an attribute that is not set. -/
  | attributeError (name : String)
  /-- modelling artifact: the redirect recursion exceeded its fuel -/
  | outOfFuel
deriving DecidableEq, Repr

/-- The attribute state of a `WikiPage` object.  `none` means the attribute
is not set.  `_revid` and `_parentid` are the attributes tested by the
`revision_id` / `parent_id` cache guards; `_revision_id` / `_parent_id` are
the ones the `content` fetch writes. -/
structure WPState where
  title : Option String := none
  original_title : Option String := none
  page_id : Option String := none
  session : Session := defaultSession
  endpoint : String := endpointFor "en"
  url : Option String := none
  _html : Option String := none
  _content : Option String := none
  _summary : Option String := none
  _revision_id : Option Nat := none
  _parent_id : Option Nat := none
  _revid : Option Nat := none
  _parentid : Option Nat := none
deriving DecidableEq, Repr

/-- Model of `WikiPage.__init__` minus the `__load` scheduling: branch on the truthy
`title` / `page_id` arguments (raising `ValueError` when neither is given),
then unconditionally set `session` and `endpoint`.  `prev` is the attribute
state the call runs on: fresh (`{}`) for a top-level construction, the
current state for the re-entrant `self.__init__` of the redirect branch —
attributes not assigned by `__init__` (such as an existing `page_id`)
persist.  `original_title` keeps its `''` default in both construction
paths exercised by the code. -/
def wikiInit (prev : WPState) (titleArg : Option String) (pageIdArg : Option String)
    (locale : String) (session : Session) : Except LoadError WPState :=
  let base : Except LoadError WPState :=
    if truthyS titleArg then
      .ok { prev with title := titleArg, original_title := some "" }
    else if truthyS pageIdArg then
      .ok { prev with page_id := pageIdArg }
    else
      .error .valueError
  base.map fun st => { st with session := session, endpoint := endpointFor locale }

/-- Line 58 of the source: address the `info|pageprops` query by
`titles=self.title` when `getattr(self, 'page_id', None)` is falsy, else by
`pageids=self.page_id`. -/
def loadQueryParam (st : WPState) : TitleOrId :=
  if !truthyS st.page_id then .byTitle (st.title.getD "")
  else .byId (st.page_id.getD "")

/-- Model of `WikiPage.__load`, with explicit fuel for the re-entrant redirect
recursion.  Returns the final state (success assigns `page_id`, `title`,
`url` from the response) or the raised error, together with the request log. -/
def loadAux (o : Oracle) (redirect preload : Bool) :
    Nat → WPState → Except LoadError WPState × List Request
  | 0, _ => (.error .outOfFuel, [])
  | fuel + 1, st =>
    let q : TitleOrId := loadQueryParam st
    let r := o.info st.endpoint q
    let log0 : List Request := [.infoQuery st.endpoint q]
    let page := r.page
    if page.missing then
      match st.title with
      | some t => (.error (.pageError t), log0)
      | none => (.error (.pageError (st.page_id.getD "")), log0)
    else match r.redirects with
      | some rds =>
        if redirect then
          -- from_title := normalized['to'] after the consistency assert,
          -- else self.title
          let fromTitle : Except LoadError String :=
            match r.normalized with
            | some nm =>
              match st.title with
              | some t => if nm.from_ == t then .ok nm.to_ else .error .oddError
              | none => .error (.attributeError "title")
            | none =>
              match st.title with
              | some t => .ok t
              | none => .error (.attributeError "title")
          match fromTitle with
          | .error e => (.error e, log0)
          | .ok ft =>
            if rds.from_ == ft then
              -- self.__init__(title=redirects['to'], redirect=redirect,
              --               preload=preload): locale and session fall back
              -- to their defaults 'en' / module-default session.
              match wikiInit st (some rds.to_) none "en" defaultSession with
              | .error e => (.error e, log0)
              | .ok st' =>
                let (res, log') := loadAux o redirect preload fuel st'
                (res, log0 ++ log')
            else (.error .oddError, log0)
        else
          match st.title with
          | some t => (.error (.redirectError t), log0)
          | none => (.error (.redirectError page.title), log0)
      | none =>
        if page.pageprops then
          -- disambiguation: fetch rendered html, collect non-toc anchor text
          let q2 : TitleOrId :=
            match st.page_id with
            | some p => .byId p
            | none => .byTitle (st.title.getD "")
          let html := o.revisionsHtml st.endpoint q2
          let log1 := log0 ++ [Request.revisionsHtml st.endpoint q2]
          let mayReferTo := o.liAnchors html
          match st.title with
          | some t => (.error (.disambiguationError t mayReferTo), log1)
          | none => (.error (.disambiguationError page.title mayReferTo), log1)
        else
          (.ok { st with page_id := some r.firstPageId,
                         title := some page.title,
                         url := some page.fullurl }, log0)

/-- The loop-side resolution process: the attribute state a fresh
`WikiPage(...)` construction sets up, followed by the scheduled `__load`
coroutine run to completion on the event loop.  This is the outcome the
discarded future would carry — NOT what the constructor's caller receives;
the caller-facing constructor is `wikiPage` below. -/
def resolve (o : Oracle) (titleArg pageIdArg : Option String)
    (redirect preload : Bool) (locale : String) (session : Session)
    (fuel : Nat) : Except LoadError WPState × List Request :=
  match wikiInit {} titleArg pageIdArg locale session with
  | .error e => (.error e, [])
  | .ok st => loadAux o redirect preload fuel st

/-- The caller-facing `WikiPage(...)` constructor.  `__init__` raises
`ValueError` synchronously when neither a truthy title nor a truthy page id
is given; otherwise it schedules `__load` with
`asyncio.run_coroutine_threadsafe` and DISCARDS the returned future, then
returns the object immediately.  The caller therefore receives the
partially initialized state (first component: `title` or `page_id` set from
the input, `url` and the canonical fields unset); the scheduled load's
outcome and request log (second component) happen later on the event loop,
and an exception raised there is swallowed by the discarded future, never
reaching the caller. -/
def wikiPage (o : Oracle) (titleArg pageIdArg : Option String)
    (redirect preload : Bool) (locale : String) (session : Session)
    (fuel : Nat) :
    Except LoadError (WPState × (Except LoadError WPState × List Request)) :=
  match wikiInit {} titleArg pageIdArg locale session with
  | .error e => .error e
  | .ok st => .ok (st, loadAux o redirect preload fuel st)

/-! ## Lazy accessors -/

/-- Model of `WikiPage.html`: fetch-and-cache guarded by the truthiness of `_html`.
The `titles` param reads `self.title`; the response extraction indexes by
`self.page_id` (each raising `AttributeError` when the attribute is unset). -/
def htmlA (o : Oracle) (st : WPState) :
    Except LoadError String × WPState × List Request :=
  if truthyS st._html then
    (.ok (st._html.getD ""), st, [])
  else
    match st.title with
    | none => (.error (.attributeError "title"), st, [])
    | some t =>
      let q := TitleOrId.byTitle t
      let log := [Request.revisionsHtml st.endpoint q]
      match st.page_id with
      | none => (.error (.attributeError "page_id"), st, log)
      | some _ =>
        let v := o.revisionsHtml st.endpoint q
        (.ok v, { st with _html := some v }, log)

/-- Model of `WikiPage.content`: fetch-and-cache guarded by the truthiness of
`_content`; the single `prop=extracts|revisions` response also populates
`_revision_id` and `_parent_id`. -/
def contentA (o : Oracle) (st : WPState) :
    Except LoadError String × WPState × List Request :=
  if truthyS st._content then
    (.ok (st._content.getD ""), st, [])
  else
    let qE : Except LoadError TitleOrId :=
      match st.title with
      | some t => .ok (.byTitle t)
      | none =>
        match st.page_id with
        | some p => .ok (.byId p)
        | none => .error (.attributeError "page_id")
    match qE with
    | .error e => (.error e, st, [])
    | .ok q =>
      let log := [Request.extractsRevisions st.endpoint q]
      match st.page_id with
      | none => (.error (.attributeError "page_id"), st, log)
      | some _ =>
        let v := o.extract st.endpoint q
        let rv := o.revid st.endpoint q
        let pv := o.parentid st.endpoint q
        (.ok v, { st with _content := some v, _revision_id := some rv,
                          _parent_id := some pv }, log)

/-- Model of `WikiPage.summary`: fetch-and-cache guarded by the truthiness of
`_summary`, against the `prop=extracts&exintro=` endpoint. -/
def summaryA (o : Oracle) (st : WPState) :
    Except LoadError String × WPState × List Request :=
  if truthyS st._summary then
    (.ok (st._summary.getD ""), st, [])
  else
    let qE : Except LoadError TitleOrId :=
      match st.title with
      | some t => .ok (.byTitle t)
      | none =>
        match st.page_id with
        | some p => .ok (.byId p)
        | none => .error (.attributeError "page_id")
    match qE with
    | .error e => (.error e, st, [])
    | .ok q =>
      let log := [Request.extractsIntro st.endpoint q]
      match st.page_id with
      | none => (.error (.attributeError "page_id"), st, log)
      | some _ =>
        let v := o.introExtract st.endpoint q
        (.ok v, { st with _summary := some v }, log)

/-- Model of `WikiPage.revision_id` (synchronous property): when `_revid` is not
truthy it schedules `self.content` on the event loop, then returns
`self._revision_id`.  The returned value reads the attribute as it is at
the call (the scheduled coroutine runs after the property returns); the
scheduled fetch's state and request effects are the returned state/log. -/
def revision_idA (o : Oracle) (st : WPState) :
    Except LoadError Nat × WPState × List Request :=
  let sched : WPState × List Request :=
    if truthyNat st._revid then (st, [])
    else
      let (_, st', log) := contentA o st
      (st', log)
  let value : Except LoadError Nat :=
    match st._revision_id with
    | some v => .ok v
    | none => .error (.attributeError "_revision_id")
  (value, sched.1, sched.2)

/-- Model of `WikiPage.parent_id` (synchronous property): same shape as
`revision_id`, guarded by `_parentid`, returning `self._parent_id`. -/
def parent_idA (o : Oracle) (st : WPState) :
    Except LoadError Nat × WPState × List Request :=
  let sched : WPState × List Request :=
    if truthyNat st._parentid then (st, [])
    else
      let (_, st', log) := contentA o st
      (st', log)
  let value : Except LoadError Nat :=
    match st._parent_id with
    | some v => .ok v
    | none => .error (.attributeError "_parent_id")
  (value, sched.1, sched.2)

/-! ## `section`: string scanning helpers (Python `str.index`, `lstrip`,
`strip`) over character lists -/

/-- Python `hay.index(pat, start)`: position of the first occurrence of
`pat` in `hay` at or after `start`, `none` when absent (`ValueError`). -/
def findFrom (hay pat : List Char) (start : Nat) : Option Nat :=
  (List.range (hay.length + 1)).find? fun i =>
    decide (start ≤ i) && pat.isPrefixOf (hay.drop i)

/-- Python `lstrip(c)`. -/
def pyLstrip (cs : List Char) (c : Char) : List Char :=
  cs.dropWhile (· == c)

/-- Python `strip()` (trim whitespace at both ends). -/
def pyStripWs (cs : List Char) : List Char :=
  ((cs.dropWhile Char.isWhitespace).reverse.dropWhile Char.isWhitespace).reverse

/-- Computes `s[index:next_index].lstrip("=").strip()`. -/
def sliceStrip (s : String) (index next_index : Nat) : String :=
  String.mk (pyStripWs (pyLstrip ((s.toList.drop index).take (next_index - index)) '='))

/-- The pure string computation of `WikiPage.section` as a function of the
content: locate `"== {title} =="`, then the text up to the next `"=="`
(or the end), left-stripped of `=` and trimmed; `none` when the section
marker is absent. -/
def sectionText (section_title content : String) : Option String :=
  let sec := "== " ++ section_title ++ " =="
  match findFrom content.toList sec.toList 0 with
  | none => none
  | some i =>
    let index := i + sec.toList.length
    let next_index := (findFrom content.toList ['=', '='] index).getD content.toList.length
    some (sliceStrip content index next_index)

/-- Model of `WikiPage.section(section_title)`: the method awaits `self.content` at
each of its four occurrences in the source (fetching when the cache guard
fails), so each occurrence is a separate `contentA` call here. -/
def sectionA (o : Oracle) (st : WPState) (section_title : String) :
    Except LoadError (Option String) × WPState × List Request :=
  let sec := "== " ++ section_title ++ " =="
  let (c1, st1, log1) := contentA o st
  match c1 with
  | .error e => (.error e, st1, log1)
  | .ok v1 =>
    match findFrom v1.toList sec.toList 0 with
    | none => (.ok none, st1, log1)
    | some i =>
      let index := i + sec.toList.length
      let (c2, st2, log2) := contentA o st1
      match c2 with
      | .error e => (.error e, st2, log1 ++ log2)
      | .ok v2 =>
        match findFrom v2.toList ['=', '='] index with
        | some n =>
          let (c4, st4, log4) := contentA o st2
          match c4 with
          | .error e => (.error e, st4, log1 ++ log2 ++ log4)
          | .ok v4 => (.ok (some (sliceStrip v4 index n)), st4, log1 ++ log2 ++ log4)
        | none =>
          let (c3, st3, log3) := contentA o st2
          match c3 with
          | .error e => (.error e, st3, log1 ++ log2 ++ log3)
          | .ok v3 =>
            let n := v3.toList.length
            let (c4, st4, log4) := contentA o st3
            match c4 with
            | .error e => (.error e, st4, log1 ++ log2 ++ log3 ++ log4)
            | .ok v4 =>
              (.ok (some (sliceStrip v4 index n)), st4, log1 ++ log2 ++ log3 ++ log4)

/-! ## `continued_query` -/

/-- The fields of one paged response that `continued_query` reads:
whether `'query'` is present, the items of `query['pages'].values()`
(generator mode), the items of `query['pages'][self.page_id][prop]`
(plain mode), and the `'continue'` token when present. -/
structure CQResponse where
  hasQuery : Bool
  pagesValues : List String
  propItems : List String
  cont : Option Nat
deriving DecidableEq, Repr

/-- The paged-listing server: a response for each continuation token
(`none` is the initial empty `last_continue = {}`). -/
abbrev CQServer := Option Nat → CQResponse

/-- One run of the `while True` loop of `continued_query` from a given
`last_continue`, with fuel; returns the yielded items in order and the
number of requests made.  Break before yielding when `'query'` is absent;
yield the page values (generator mode) or the bound page's property list;
break after yielding when there is no `'continue'` token. -/
def continuedQueryAux (server : CQServer) (genMode : Bool) :
    Nat → Option Nat → List String × Nat
  | 0, _ => ([], 0)
  | fuel + 1, lastContinue =>
    let r := server lastContinue
    if !r.hasQuery then ([], 1)
    else
      let items := if genMode then r.pagesValues else r.propItems
      match r.cont with
      | none => (items, 1)
      | some t =>
        let (rest, n) := continuedQueryAux server genMode fuel (some t)
        (items ++ rest, n + 1)

/-- Model of `WikiPage.continued_query`: every invocation starts from the fresh
empty continuation state `last_continue = {}`. -/
def continuedQuery (server : CQServer) (genMode : Bool) (fuel : Nat) :
    List String × Nat :=
  continuedQueryAux server genMode fuel none

/-! ## `AIOPedia.search` -/

/-- The fields of the raw search response that `search` reads:
`raw_results['error']['info']` when `'error'` is present, the titles of
`raw_results['query']['search']`, and `searchinfo['suggestion']` when
`raw_results['query'].get('searchinfo')` is truthy. -/
structure SearchRaw where
  error_info : Option String
  search : List String
  searchinfo : Option String
deriving DecidableEq, Repr

/-- Errors raised by `AIOPedia.search`. -/
inductive SearchError where
  | httpTimeoutError (title : String)
  | wikipediaException (info : String)
deriving DecidableEq, Repr

/-- The two return shapes of `search`: a plain title list, or the
`(results, suggestion)` pair when `suggestion=True`. -/
inductive SearchResult where
  | titles (l : List String)
  | titlesWithSuggestion (l : List String) (s : Option String)
deriving DecidableEq, Repr

/-- The two API error messages treated as timeout / pool exhaustion. -/
def timeoutSignatures : List String :=
  ["HTTP request timed out.", "Pool queue is full"]

/-- The response-handling tail of `AIOPedia.search` (the raw decoded
response is the input; the single search request itself always precedes
it): timeout-signature errors raise `HTTPTimeoutError(self.title)`, other
reported errors raise `WikipediaException(info)`, otherwise the titles
(and, with `suggestion=True`, the optional suggestion) are returned. -/
def searchA (selfTitle : String) (suggestion : Bool) (raw : SearchRaw) :
    Except SearchError SearchResult :=
  match raw.error_info with
  | some info =>
    if info ∈ timeoutSignatures then .error (.httpTimeoutError selfTitle)
    else .error (.wikipediaException info)
  | none =>
    if suggestion then
      match raw.searchinfo with
      | some s => .ok (.titlesWithSuggestion raw.search (some s))
      | none => .ok (.titlesWithSuggestion raw.search none)
    else .ok (.titles raw.search)

deriving instance DecidableEq for Except

/-! ## Concrete demonstration data -/

/-- A plainly resolvable page record. -/
def demoPage : PageData :=
  { missing := false, pageprops := false, title := "Banana",
    fullurl := "https://en.wikipedia.org/wiki/Banana" }

/-- An `info|pageprops` response resolving directly (no redirect,
no disambiguation). -/
def demoInfo : InfoQuery :=
  { firstPageId := "100", page := demoPage, redirects := none, normalized := none }

/-- A server answering every request for the demo page. -/
def demoOracle : Oracle :=
  { info := fun _ _ => demoInfo
    revisionsHtml := fun _ _ => "<p>html</p>"
    liAnchors := fun _ => []
    extract := fun _ _ => "CONTENT"
    revid := fun _ _ => 7
    parentid := fun _ _ => 5
    introExtract := fun _ _ => "SUMMARY" }

/-- The state of the demo page after a successful resolve. -/
def bananaResolved : WPState :=
  { title := some "Banana", original_title := some "", page_id := some "100",
    session := defaultSession, endpoint := endpointFor "en",
    url := some "https://en.wikipedia.org/wiki/Banana" }

/-- A server whose content-field responses are all empty strings. -/
def emptyFieldOracle : Oracle :=
  { demoOracle with
    revisionsHtml := fun _ _ => ""
    extract := fun _ _ => ""
    introExtract := fun _ _ => "" }

/-- A server on which title "A" redirects to title "B" consistently. -/
def redirOracle : Oracle :=
  { demoOracle with
    info := fun _ q =>
      if q = TitleOrId.byTitle "A" then
        { firstPageId := "10",
          page := { missing := false, pageprops := false, title := "A", fullurl := "u" },
          redirects := some { from_ := "A", to_ := "B" }, normalized := none }
      else demoInfo }

/-- A server where "A" redirects to "B", and "B" resolves to different
pages on the `fr` and `en` endpoints. -/
def localeOracle : Oracle :=
  { demoOracle with
    info := fun ep q =>
      if q = TitleOrId.byTitle "A" then
        { firstPageId := "10",
          page := { missing := false, pageprops := false, title := "A", fullurl := "u" },
          redirects := some { from_ := "A", to_ := "B" }, normalized := none }
      else if ep = endpointFor "fr" then
        { firstPageId := "2",
          page := { missing := false, pageprops := false, title := "B",
                    fullurl := "https://fr.wikipedia.org/wiki/B" },
          redirects := none, normalized := none }
      else
        { firstPageId := "1",
          page := { missing := false, pageprops := false, title := "B",
                    fullurl := "https://en.wikipedia.org/wiki/B" },
          redirects := none, normalized := none } }

/-- A three-page continuation server: the first two responses carry a
`continue` token, the third does not. -/
def cqDemoServer : CQServer := fun t =>
  match t with
  | none => { hasQuery := true, pagesValues := ["a1", "a2"], propItems := ["x1"], cont := some 1 }
  | some 1 => { hasQuery := true, pagesValues := ["b1"], propItems := ["x2", "x3"], cont := some 2 }
  | some 2 => { hasQuery := true, pagesValues := ["c1"], propItems := ["x4"], cont := none }
  | some _ => { hasQuery := false, pagesValues := [], propItems := [], cont := none }

/-- Extra cached demo states. -/
def bananaCached : WPState :=
  { bananaResolved with _html := some "H", _content := some "C",
                        _summary := some "S", _revision_id := some 7,
                        _parent_id := some 5 }

def bananaHtmlFetched : WPState :=
  { bananaResolved with _html := some "<p>html</p>" }

def bananaContentFetched : WPState :=
  { bananaResolved with _content := some "CONTENT", _revision_id := some 7,
                        _parent_id := some 5 }

def bananaSummaryFetched : WPState :=
  { bananaResolved with _summary := some "SUMMARY" }

/-- The demo page with the spec's example content cached. -/
def historySt : WPState :=
  { bananaResolved with
    _content := some "intro == History == body text == Legacy == more",
    _revision_id := some 7, _parent_id := some 5 }

/-- A freshly constructed, unresolved page. -/
def freshA : WPState := { title := some "A" }

/-- The state after `wikiInit freshA (some "B") none "fr" 9`. -/
def freshB9 : WPState :=
  { title := some "B", original_title := some "", session := 9,
    endpoint := endpointFor "fr" }

/-- The state after a successful `loadAux` on `freshA` against the demo
server. -/
def freshALoaded : WPState :=
  { title := some "Banana", page_id := some "100",
    url := some "https://en.wikipedia.org/wiki/Banana" }

/-! ## C7: continuation over three pages -/

/-- C7: for every paged-listing server whose first two responses (from the
fresh empty continuation state) carry a `continue` token and whose third
does not, `continued_query` yields the three responses' items concatenated
in arrival order, makes exactly three requests, and stops regardless of any
remaining fuel; each invocation of `continuedQuery` starts from the empty
continuation state by definition. -/
theorem continuedQuery_three_pages (server : CQServer) (genMode : Bool)
    (r1 r2 r3 : CQResponse) (t1 t2 : Nat) (fuel : Nat)
    (h1 : server none = r1) (hq1 : r1.hasQuery = true) (hc1 : r1.cont = some t1)
    (h2 : server (some t1) = r2) (hq2 : r2.hasQuery = true) (hc2 : r2.cont = some t2)
    (h3 : server (some t2) = r3) (hq3 : r3.hasQuery = true) (hc3 : r3.cont = none) :
    continuedQuery server genMode (fuel + 3) =
      ((if genMode then r1.pagesValues else r1.propItems) ++
       ((if genMode then r2.pagesValues else r2.propItems) ++
        (if genMode then r3.pagesValues else r3.propItems)), 3) := by
  have e3 : fuel + 3 = (fuel + 2) + 1 := rfl
  have e2 : fuel + 2 = (fuel + 1) + 1 := rfl
  simp only [continuedQuery, e3, e2, continuedQueryAux, h1, hq1, hc1, h2, hq2,
    hc2, h3, hq3, hc3, Bool.not_true, Bool.false_eq_true, if_false]

/-- Witness for C7 on the concrete three-page server. -/
theorem continuedQuery_three_pages_witness :
    continuedQuery cqDemoServer true 3 = (["a1", "a2", "b1", "c1"], 3) :=
  continuedQuery_three_pages cqDemoServer true _ _ _ 1 2 0
    rfl rfl rfl rfl rfl rfl rfl rfl rfl

/-! ## C8: search error taxonomy -/

/-- C8: `search` raises `HTTPTimeoutError` exactly when the response
reports an error whose message is one of the timeout/pool-exhaustion
signatures; any other reported error message raises
`WikipediaException(message)`; with no reported error the result titles
(paired with the optional suggestion when requested) are returned. -/
theorem search_error_taxonomy (t : String) (sug : Bool) (raw : SearchRaw) :
    ((∃ info, raw.error_info = some info ∧ info ∈ timeoutSignatures) ↔
      searchA t sug raw = .error (.httpTimeoutError t)) ∧
    (∀ info, raw.error_info = some info → info ∉ timeoutSignatures →
      searchA t sug raw = .error (.wikipediaException info)) ∧
    (raw.error_info = none →
      searchA t sug raw =
        .ok (if sug then .titlesWithSuggestion raw.search raw.searchinfo
             else .titles raw.search)) := by
  refine ⟨⟨?_, ?_⟩, ?_, ?_⟩
  · rintro ⟨info, hinfo, hmem⟩
    simp [searchA, hinfo, hmem]
  · intro h
    rcases hri : raw.error_info with _ | info
    · rcases hsi : raw.searchinfo with _ | s <;>
        rcases sug with _ | _ <;> simp [searchA, hri, hsi] at h
    · by_cases hmem : info ∈ timeoutSignatures
      · exact ⟨info, rfl, hmem⟩
      · simp [searchA, hri, hmem] at h
  · intro info hinfo hmem
    simp [searchA, hinfo, hmem]
  · intro hnone
    rcases hsi : raw.searchinfo with _ | s <;>
      rcases sug with _ | _ <;> simp [searchA, hnone, hsi]

/-- Witness for C8: each of the three outcomes on a concrete response. -/
theorem search_error_taxonomy_witness :
    searchA "Q" true { error_info := some "Pool queue is full",
                       search := [], searchinfo := none } =
      .error (.httpTimeoutError "Q") ∧
    searchA "Q" false { error_info := some "boom",
                        search := [], searchinfo := none } =
      .error (.wikipediaException "boom") ∧
    searchA "Q" true { error_info := none,
                       search := ["R1", "R2"], searchinfo := some "r" } =
      .ok (.titlesWithSuggestion ["R1", "R2"] (some "r")) :=
  ⟨(search_error_taxonomy "Q" true _).1.mp ⟨"Pool queue is full", rfl, by decide⟩,
   (search_error_taxonomy "Q" false _).2.1 "boom" rfl (by decide),
   (search_error_taxonomy "Q" true _).2.2 rfl⟩

/-! ## C3: redirect with followRedirects=false -/

/-- C3: on a redirecting title with `redirect=False`, the whole resolve
call fails with `RedirectError` carrying the original input title, and the
request log is exactly the single initial `info|pageprops` query — the
follow-up request to the redirect target is never made. -/
theorem resolve_redirect_not_followed (o : Oracle) (A : String) (preload : Bool)
    (locale : String) (session : Session) (fuel : Nat)
    (hA : A.isEmpty = false)
    (hm : (o.info (endpointFor locale) (.byTitle A)).page.missing = false)
    (hr : (o.info (endpointFor locale) (.byTitle A)).redirects.isSome = true) :
    resolve o (some A) none false preload locale session (fuel + 1) =
      (.error (.redirectError A), [.infoQuery (endpointFor locale) (.byTitle A)]) := by
  obtain ⟨rds, hrds⟩ := Option.isSome_iff_exists.mp hr
  simp [resolve, wikiInit, loadAux, loadQueryParam, truthyS, Except.map, hA, hm, hrds]

/-- Witness for C3 on the concrete redirecting server. -/
theorem resolve_redirect_not_followed_witness :
    resolve redirOracle (some "A") none false false "en" defaultSession 1 =
      (.error (.redirectError "A"), [.infoQuery (endpointFor "en") (.byTitle "A")]) :=
  resolve_redirect_not_followed redirOracle "A" false "en" defaultSession 0
    (by decide) (by decide) (by decide)

/-! ## C9: the redirect re-invocation reverts locale and session -/

/-- C9: whenever `__load` follows a redirect, it re-runs `__init__` with
only the redirect target title and the `redirect`/`preload` flags; the
re-initialized page keeps its other attributes but its endpoint reverts to
the default `'en'` locale and its session to the module-default session,
regardless of the locale and session the original page was constructed
with, and resolution continues from that state. -/
theorem load_redirect_reverts_locale_session (o : Oracle) (preload : Bool)
    (st : WPState) (A : String) (rds : RedirectEntry) (fuel : Nat)
    (ht : st.title = some A)
    (hp : st.page_id = none)
    (hm : (o.info st.endpoint (.byTitle A)).page.missing = false)
    (hr : (o.info st.endpoint (.byTitle A)).redirects = some rds)
    (hassert : match (o.info st.endpoint (.byTitle A)).normalized with
               | some nm => nm.from_ = A ∧ rds.from_ = nm.to_
               | none => rds.from_ = A)
    (htgt : rds.to_.isEmpty = false) :
    ∃ st', wikiInit st (some rds.to_) none "en" defaultSession = .ok st' ∧
      st'.title = some rds.to_ ∧
      st'.endpoint = endpointFor "en" ∧
      st'.session = defaultSession ∧
      st'.page_id = st.page_id ∧
      st'.url = st.url ∧
      loadAux o true preload (fuel + 1) st =
        ((loadAux o true preload fuel st').1,
          .infoQuery st.endpoint (.byTitle A) :: (loadAux o true preload fuel st').2) := by
  refine ⟨{ st with title := some rds.to_, original_title := some "",
                    session := defaultSession, endpoint := endpointFor "en" },
    by simp [wikiInit, truthyS, Except.map, htgt], rfl, rfl, rfl, rfl, rfl, ?_⟩
  rcases hn : (o.info st.endpoint (.byTitle A)).normalized with _ | nm
  · rw [hn] at hassert
    simp only at hassert
    simp [loadAux, loadQueryParam, ht, hp, hm, hr, hn, hassert, wikiInit, truthyS, Except.map, htgt]
  · rw [hn] at hassert
    simp only at hassert
    obtain ⟨h1, h2⟩ := hassert
    simp [loadAux, loadQueryParam, ht, hp, hm, hr, hn, h1, h2, wikiInit, truthyS, Except.map, htgt]

/-- Witness for C9 on the concrete redirecting server, constructed with a
non-default locale and session. -/
theorem load_redirect_reverts_locale_session_witness :
    ∃ st', wikiInit { title := some "A", original_title := some "",
                      session := 9, endpoint := endpointFor "fr" }
             (some "B") none "en" defaultSession = .ok st' ∧
      st'.title = some "B" ∧
      st'.endpoint = endpointFor "en" ∧
      st'.session = defaultSession ∧
      st'.page_id = none ∧
      st'.url = none ∧
      loadAux redirOracle true false 1
          { title := some "A", original_title := some "",
            session := 9, endpoint := endpointFor "fr" } =
        ((loadAux redirOracle true false 0 st').1,
          .infoQuery (endpointFor "fr") (.byTitle "A") ::
            (loadAux redirOracle true false 0 st').2) :=
  load_redirect_reverts_locale_session redirOracle false _ "A"
    { from_ := "A", to_ := "B" } 0 rfl rfl (by decide) (by decide)
    (by exact rfl) (by decide)

/-! ## C2: the redirect chase -/

/-- C2 fails as stated: the re-invocation reverts to the `'en'` locale, so
with a shared non-`'en'` locale the two resolves can disagree.  On
`localeOracle`, `"A"` redirects to `"B"`; resolving `"A"` under locale
`"fr"` chases the redirect on the `'en'` endpoint and yields page id `"1"`
with the `en` URL, while resolving `"B"` under the same locale `"fr"` and
session yields page id `"2"` with the `fr` URL. -/
theorem resolve_redirect_chase_counterexample :
    (resolve localeOracle (some "A") none true false "fr" 9 2).1 ≠
      (resolve localeOracle (some "B") none true false "fr" 9 2).1 := by decide

/-- C2 amended: for a title `A` whose `info` response redirects to
`rds.to_` (with the redirect-source consistency asserts passing),
`resolve(A, followRedirects=true)` under any locale and session yields
exactly the result of `resolve(rds.to_, followRedirects=true)` under the
default `'en'` locale and the module-default session (one recursion step
of fuel apart). -/
theorem resolve_redirect_chase_amended (o : Oracle) (A : String) (preload : Bool)
    (locale : String) (session : Session) (fuel : Nat) (rds : RedirectEntry)
    (hA : A.isEmpty = false)
    (hm : (o.info (endpointFor locale) (.byTitle A)).page.missing = false)
    (hr : (o.info (endpointFor locale) (.byTitle A)).redirects = some rds)
    (hassert : match (o.info (endpointFor locale) (.byTitle A)).normalized with
               | some nm => nm.from_ = A ∧ rds.from_ = nm.to_
               | none => rds.from_ = A)
    (htgt : rds.to_.isEmpty = false) :
    (resolve o (some A) none true preload locale session (fuel + 1)).1 =
      (resolve o (some rds.to_) none true preload "en" defaultSession fuel).1 := by
  rcases hn : (o.info (endpointFor locale) (.byTitle A)).normalized with _ | nm
  · rw [hn] at hassert
    simp [resolve, wikiInit, loadAux, loadQueryParam, truthyS, Except.map, hA, hm, hr, hn, hassert, htgt]
  · rw [hn] at hassert
    obtain ⟨h1, h2⟩ := hassert
    simp [resolve, wikiInit, loadAux, loadQueryParam, truthyS, Except.map, hA, hm, hr, hn, h1, h2, htgt]

/-- Witness for the amended C2 on the concrete redirecting server. -/
theorem resolve_redirect_chase_amended_witness :
    (resolve redirOracle (some "A") none true false "en" defaultSession 2).1 =
      (resolve redirOracle (some "B") none true false "en" defaultSession 1).1 :=
  resolve_redirect_chase_amended redirOracle "A" false "en" defaultSession 1
    { from_ := "A", to_ := "B" } (by decide) (by decide) (by decide)
    (by exact rfl) (by decide)

/-! ## Accessor helper lemmas -/

lemma truthyS_iff (x : Option String) :
    truthyS x = true ↔ ∃ s, x = some s ∧ s.isEmpty = false := by
  cases x <;> simp [truthyS]

lemma htmlA_cached (o : Oracle) (st : WPState) (v : String)
    (h : st._html = some v) (hv : v.isEmpty = false) :
    htmlA o st = (.ok v, st, []) := by
  simp [htmlA, truthyS, h, hv]

lemma contentA_cached (o : Oracle) (st : WPState) (v : String)
    (h : st._content = some v) (hv : v.isEmpty = false) :
    contentA o st = (.ok v, st, []) := by
  simp [contentA, truthyS, h, hv]

lemma summaryA_cached (o : Oracle) (st : WPState) (v : String)
    (h : st._summary = some v) (hv : v.isEmpty = false) :
    summaryA o st = (.ok v, st, []) := by
  simp [summaryA, truthyS, h, hv]

lemma htmlA_fetch_shape (o : Oracle) (st : WPState) (v : String)
    (st' : WPState) (log : List Request)
    (hfresh : truthyS st._html = false)
    (h : htmlA o st = (.ok v, st', log)) :
    ∃ t, st.title = some t ∧ st.page_id.isSome ∧
      v = o.revisionsHtml st.endpoint (.byTitle t) ∧
      st' = { st with _html := some v } ∧
      log = [.revisionsHtml st.endpoint (.byTitle t)] := by
  rcases htt : st.title with _ | t
  · simp [htmlA, hfresh, htt] at h
  · rcases hpp : st.page_id with _ | p
    · simp [htmlA, hfresh, htt, hpp] at h
    · refine ⟨t, rfl, by simp [hpp], ?_⟩
      simp only [htmlA, hfresh, Bool.false_eq_true, if_false, htt, hpp] at h
      simp only [Prod.mk.injEq, Except.ok.injEq] at h
      obtain ⟨h1, h2, h3⟩ := h
      subst h1; subst h2; subst h3
      refine ⟨rfl, ?_, rfl⟩
      simp [htt]

lemma contentA_fetch_shape (o : Oracle) (st : WPState) (v : String)
    (st' : WPState) (log : List Request)
    (hfresh : truthyS st._content = false)
    (h : contentA o st = (.ok v, st', log)) :
    ∃ q, st.page_id.isSome ∧
      v = o.extract st.endpoint q ∧
      st' = { st with _content := some v,
                      _revision_id := some (o.revid st.endpoint q),
                      _parent_id := some (o.parentid st.endpoint q) } ∧
      log = [.extractsRevisions st.endpoint q] := by
  rcases htt : st.title with _ | t
  · rcases hpp : st.page_id with _ | p
    · simp [contentA, hfresh, htt, hpp] at h
    · refine ⟨.byId p, by simp [hpp], ?_⟩
      simp only [contentA, hfresh, Bool.false_eq_true, if_false, htt, hpp] at h
      simp only [Prod.mk.injEq, Except.ok.injEq] at h
      obtain ⟨h1, h2, h3⟩ := h
      subst h1; subst h2; subst h3
      exact ⟨rfl, rfl, rfl⟩
  · rcases hpp : st.page_id with _ | p
    · simp [contentA, hfresh, htt, hpp] at h
    · refine ⟨.byTitle t, by simp [hpp], ?_⟩
      simp only [contentA, hfresh, Bool.false_eq_true, if_false, htt, hpp] at h
      simp only [Prod.mk.injEq, Except.ok.injEq] at h
      obtain ⟨h1, h2, h3⟩ := h
      subst h1; subst h2; subst h3
      exact ⟨rfl, rfl, rfl⟩

lemma summaryA_fetch_shape (o : Oracle) (st : WPState) (v : String)
    (st' : WPState) (log : List Request)
    (hfresh : truthyS st._summary = false)
    (h : summaryA o st = (.ok v, st', log)) :
    ∃ q, st.page_id.isSome ∧
      v = o.introExtract st.endpoint q ∧
      st' = { st with _summary := some v } ∧
      log = [.extractsIntro st.endpoint q] := by
  rcases htt : st.title with _ | t
  · rcases hpp : st.page_id with _ | p
    · simp [summaryA, hfresh, htt, hpp] at h
    · refine ⟨.byId p, by simp [hpp], ?_⟩
      simp only [summaryA, hfresh, Bool.false_eq_true, if_false, htt, hpp] at h
      simp only [Prod.mk.injEq, Except.ok.injEq] at h
      obtain ⟨h1, h2, h3⟩ := h
      subst h1; subst h2; subst h3
      exact ⟨rfl, rfl, rfl⟩
  · rcases hpp : st.page_id with _ | p
    · simp [summaryA, hfresh, htt, hpp] at h
    · refine ⟨.byTitle t, by simp [hpp], ?_⟩
      simp only [summaryA, hfresh, Bool.false_eq_true, if_false, htt, hpp] at h
      simp only [Prod.mk.injEq, Except.ok.injEq] at h
      obtain ⟨h1, h2, h3⟩ := h
      subst h1; subst h2; subst h3
      exact ⟨rfl, rfl, rfl⟩

lemma htmlA_ok_state (o : Oracle) (st : WPState) (v : String)
    (st' : WPState) (log : List Request)
    (h : htmlA o st = (.ok v, st', log)) :
    st'._html = some v ∧ st'.endpoint = st.endpoint ∧ st'.title = st.title ∧
    st'.page_id = st.page_id ∧ st'._content = st._content ∧
    st'._summary = st._summary ∧ st'._revision_id = st._revision_id ∧
    st'._parent_id = st._parent_id ∧ st'._revid = st._revid ∧
    st'._parentid = st._parentid ∧ log.length ≤ 1 := by
  by_cases hc : truthyS st._html
  · rcases (truthyS_iff _).mp hc with ⟨s, hs, hse⟩
    rw [htmlA_cached o st s hs hse] at h
    simp only [Prod.mk.injEq, Except.ok.injEq] at h
    obtain ⟨h1, h2, h3⟩ := h
    subst h1; subst h2; subst h3
    simp [hs]
  · obtain ⟨t, _, _, hv, hst, hlog⟩ :=
      htmlA_fetch_shape o st v st' log (by simpa using hc) h
    subst hst; subst hlog
    simp

lemma contentA_ok_state (o : Oracle) (st : WPState) (v : String)
    (st' : WPState) (log : List Request)
    (h : contentA o st = (.ok v, st', log)) :
    st'._content = some v ∧ st'.endpoint = st.endpoint ∧ st'.title = st.title ∧
    st'.page_id = st.page_id ∧ st'._html = st._html ∧
    st'._summary = st._summary ∧ st'._revid = st._revid ∧
    st'._parentid = st._parentid ∧ log.length ≤ 1 := by
  by_cases hc : truthyS st._content
  · rcases (truthyS_iff _).mp hc with ⟨s, hs, hse⟩
    rw [contentA_cached o st s hs hse] at h
    simp only [Prod.mk.injEq, Except.ok.injEq] at h
    obtain ⟨h1, h2, h3⟩ := h
    subst h1; subst h2; subst h3
    simp [hs]
  · obtain ⟨q, _, hv, hst, hlog⟩ :=
      contentA_fetch_shape o st v st' log (by simpa using hc) h
    subst hst; subst hlog
    simp

lemma summaryA_ok_state (o : Oracle) (st : WPState) (v : String)
    (st' : WPState) (log : List Request)
    (h : summaryA o st = (.ok v, st', log)) :
    st'._summary = some v ∧ st'.endpoint = st.endpoint ∧ st'.title = st.title ∧
    st'.page_id = st.page_id ∧ st'._html = st._html ∧
    st'._content = st._content ∧ st'._revision_id = st._revision_id ∧
    st'._parent_id = st._parent_id ∧ st'._revid = st._revid ∧
    st'._parentid = st._parentid ∧ log.length ≤ 1 := by
  by_cases hc : truthyS st._summary
  · rcases (truthyS_iff _).mp hc with ⟨s, hs, hse⟩
    rw [summaryA_cached o st s hs hse] at h
    simp only [Prod.mk.injEq, Except.ok.injEq] at h
    obtain ⟨h1, h2, h3⟩ := h
    subst h1; subst h2; subst h3
    simp [hs]
  · obtain ⟨q, _, hv, hst, hlog⟩ :=
      summaryA_fetch_shape o st v st' log (by simpa using hc) h
    subst hst; subst hlog
    simp

/-! ## C4: the lazy field accessors -/





/-- C4 fails as stated for the empty fetched value: the cache guard
`if not getattr(self, '_summary', False)` treats a cached empty string as
absent, so on a server whose summary extract is `""` two successive
`summary` accesses issue two HTTP requests, not at most one. -/
theorem lazy_field_accessors_counterexample :
    ¬ (((summaryA emptyFieldOracle bananaResolved).2.2 ++
        (summaryA emptyFieldOracle
          (summaryA emptyFieldOracle bananaResolved).2.1).2.2).length ≤ 1) := by
  decide

/-- C4 amended: for each of the `html`, `content` and `summary` accessors:
a populated cache slot holding a non-empty value is returned immediately
with no HTTP request and no state change; any successful access issues at
most one HTTP request; and after a successful access returning a non-empty
value, a second access returns the same value from the cache with no
request.  (An empty fetched value fails the truthiness guard and is
fetched again, per the counterexample.) -/
theorem lazy_field_accessors_fetch_once (o : Oracle) (st : WPState) :
    (∀ v, st._html = some v → v.isEmpty = false → htmlA o st = (.ok v, st, [])) ∧
    (∀ v st' log, htmlA o st = (.ok v, st', log) → log.length ≤ 1 ∧
      (v.isEmpty = false → htmlA o st' = (.ok v, st', []))) ∧
    (∀ v, st._content = some v → v.isEmpty = false → contentA o st = (.ok v, st, [])) ∧
    (∀ v st' log, contentA o st = (.ok v, st', log) → log.length ≤ 1 ∧
      (v.isEmpty = false → contentA o st' = (.ok v, st', []))) ∧
    (∀ v, st._summary = some v → v.isEmpty = false → summaryA o st = (.ok v, st, [])) ∧
    (∀ v st' log, summaryA o st = (.ok v, st', log) → log.length ≤ 1 ∧
      (v.isEmpty = false → summaryA o st' = (.ok v, st', []))) := by
  refine ⟨fun v h hv => htmlA_cached o st v h hv, fun v st' log h => ?_,
    fun v h hv => contentA_cached o st v h hv, fun v st' log h => ?_,
    fun v h hv => summaryA_cached o st v h hv, fun v st' log h => ?_⟩
  · obtain ⟨hslot, _, _, _, _, _, _, _, _, _, hlen⟩ := htmlA_ok_state o st v st' log h
    exact ⟨hlen, fun hv => htmlA_cached o st' v hslot hv⟩
  · obtain ⟨hslot, _, _, _, _, _, _, _, hlen⟩ := contentA_ok_state o st v st' log h
    exact ⟨hlen, fun hv => contentA_cached o st' v hslot hv⟩
  · obtain ⟨hslot, _, _, _, _, _, _, _, _, _, hlen⟩ := summaryA_ok_state o st v st' log h
    exact ⟨hlen, fun hv => summaryA_cached o st' v hslot hv⟩

/-- Witness for the amended C4: cached and fetch-then-cached accesses of
each accessor on the demo server. -/
theorem lazy_field_accessors_fetch_once_witness :
    htmlA demoOracle bananaCached = (.ok "H", bananaCached, []) ∧
    htmlA demoOracle bananaHtmlFetched = (.ok "<p>html</p>", bananaHtmlFetched, []) ∧
    contentA demoOracle bananaCached = (.ok "C", bananaCached, []) ∧
    contentA demoOracle bananaContentFetched = (.ok "CONTENT", bananaContentFetched, []) ∧
    summaryA demoOracle bananaCached = (.ok "S", bananaCached, []) ∧
    summaryA demoOracle bananaSummaryFetched = (.ok "SUMMARY", bananaSummaryFetched, []) :=
  ⟨(lazy_field_accessors_fetch_once demoOracle bananaCached).1 "H" rfl rfl,
   ((lazy_field_accessors_fetch_once demoOracle bananaResolved).2.1 "<p>html</p>"
      bananaHtmlFetched [.revisionsHtml (endpointFor "en") (.byTitle "Banana")]
      (by decide)).2 rfl,
   (lazy_field_accessors_fetch_once demoOracle bananaCached).2.2.1 "C" rfl rfl,
   ((lazy_field_accessors_fetch_once demoOracle bananaResolved).2.2.2.1 "CONTENT"
      bananaContentFetched [.extractsRevisions (endpointFor "en") (.byTitle "Banana")]
      (by decide)).2 rfl,
   (lazy_field_accessors_fetch_once demoOracle bananaCached).2.2.2.2.1 "S" rfl rfl,
   ((lazy_field_accessors_fetch_once demoOracle bananaResolved).2.2.2.2.2 "SUMMARY"
      bananaSummaryFetched [.extractsIntro (endpointFor "en") (.byTitle "Banana")]
      (by decide)).2 rfl⟩

/-! ## C5: content fetch also serves revision_id / parent_id -/

/-- C5 fails as stated for an empty extract: on a server whose content
extract is `""`, `content` on a fresh page issues one request and caches
the empty string, and a following `revision_id` access (whose `_revid`
guard never passes) schedules a content fetch that does not see the falsy
cached `""` and issues a second request — two requests in total, not
exactly one. -/
theorem content_then_revision_counterexample :
    ¬ (((contentA emptyFieldOracle bananaResolved).2.2 ++
        (revision_idA emptyFieldOracle
          (contentA emptyFieldOracle bananaResolved).2.1).2.2).length = 1) := by
  decide

/-- C5 amended: on a page whose content is not yet cached, a successful
`content` fetch returning a non-empty extract issues exactly one HTTP
request and stores `_revision_id` and `_parent_id` as side effects; the
following `revision_id` and `parent_id` accesses are then served from the
cache, issuing no request of their own and leaving the state unchanged
(their scheduled content fetch is satisfied by the cache). -/
theorem content_then_revision_single_request (o : Oracle) (st : WPState)
    (v : String) (st1 : WPState) (log1 : List Request)
    (hfresh : truthyS st._content = false)
    (h : contentA o st = (.ok v, st1, log1))
    (hv : v.isEmpty = false) :
    log1.length = 1 ∧
    ∃ rv pv, st1._revision_id = some rv ∧ st1._parent_id = some pv ∧
      revision_idA o st1 = (.ok rv, st1, []) ∧
      parent_idA o st1 = (.ok pv, st1, []) := by
  obtain ⟨q, _, hvq, hst, hlog⟩ := contentA_fetch_shape o st v st1 log1 hfresh h
  have hcached : contentA o st1 = (.ok v, st1, []) := by
    refine contentA_cached o st1 v ?_ hv
    rw [hst]
  refine ⟨by rw [hlog]; rfl, o.revid st.endpoint q, o.parentid st.endpoint q,
    by rw [hst], by rw [hst], ?_, ?_⟩
  · show revision_idA o st1 = (.ok (o.revid st.endpoint q), st1, [])
    unfold revision_idA
    rcases hg : truthyNat st1._revid with _ | _
    · simp only [hg, Bool.false_eq_true, if_false, hcached]
      rw [hst]
    · simp only [hg, if_true]
      rw [hst]
  · show parent_idA o st1 = (.ok (o.parentid st.endpoint q), st1, [])
    unfold parent_idA
    rcases hg : truthyNat st1._parentid with _ | _
    · simp only [hg, Bool.false_eq_true, if_false, hcached]
      rw [hst]
    · simp only [hg, if_true]
      rw [hst]

/-- Witness for the amended C5 on the demo server: one request for the
content, then cache-served revision and parent ids. -/
theorem content_then_revision_single_request_witness :
    [Request.extractsRevisions (endpointFor "en") (.byTitle "Banana")].length = 1 ∧
    ∃ rv pv, bananaContentFetched._revision_id = some rv ∧
      bananaContentFetched._parent_id = some pv ∧
      revision_idA demoOracle bananaContentFetched = (.ok rv, bananaContentFetched, []) ∧
      parent_idA demoOracle bananaContentFetched = (.ok pv, bananaContentFetched, []) :=
  content_then_revision_single_request demoOracle bananaResolved "CONTENT"
    bananaContentFetched [.extractsRevisions (endpointFor "en") (.byTitle "Banana")]
    rfl (by decide) rfl

/-! ## Resolution invariants -/

lemma wikiInit_ok_caches (prev : WPState) (tA pA : Option String)
    (l : String) (s : Session) (st' : WPState)
    (h : wikiInit prev tA pA l s = .ok st') :
    st'._html = prev._html ∧ st'._content = prev._content ∧
    st'._summary = prev._summary ∧ st'._revision_id = prev._revision_id ∧
    st'._parent_id = prev._parent_id ∧ st'._revid = prev._revid ∧
    st'._parentid = prev._parentid := by
  by_cases ht : truthyS tA
  · simp only [wikiInit, ht, if_true, Except.map, Except.ok.injEq] at h
    subst h
    exact ⟨rfl, rfl, rfl, rfl, rfl, rfl, rfl⟩
  · by_cases hp : truthyS pA
    · simp only [wikiInit, ht, Bool.false_eq_true, if_false, hp, if_true,
        Except.map, Except.ok.injEq] at h
      subst h
      exact ⟨rfl, rfl, rfl, rfl, rfl, rfl, rfl⟩
    · simp [wikiInit, ht, hp, Except.map] at h

lemma loadAux_ok_inv (o : Oracle) (rp pp : Bool) :
    ∀ (fuel : Nat) (st st' : WPState) (log : List Request),
      loadAux o rp pp fuel st = (.ok st', log) →
      (st'._html = st._html ∧ st'._content = st._content ∧
       st'._summary = st._summary ∧ st'._revision_id = st._revision_id ∧
       st'._parent_id = st._parent_id ∧ st'._revid = st._revid ∧
       st'._parentid = st._parentid) ∧
      ∃ ep q, (o.info ep q).page.missing = false ∧
        (o.info ep q).redirects = none ∧
        (o.info ep q).page.pageprops = false ∧
        st'.title = some (o.info ep q).page.title ∧
        st'.page_id = some (o.info ep q).firstPageId ∧
        st'.url = some (o.info ep q).page.fullurl := by
  intro fuel
  induction fuel with
  | zero =>
    intro st st' log h
    simp [loadAux] at h
  | succ n ih =>
    intro st st' log h
    simp only [loadAux] at h
    split at h
    · split at h <;> simp at h
    · split at h
      · -- a redirect entry is present
        split at h
        · -- redirect=True
          split at h
          · simp at h
          · split at h
            · split at h
              · simp at h
              · -- re-init succeeded; recurse
                rename_i st'' heq
                rcases hla : loadAux o rp pp n st'' with ⟨res, log'⟩
                rw [hla] at h
                simp only [Prod.mk.injEq] at h
                obtain ⟨hres, hlog⟩ := h
                obtain ⟨hpres, hex⟩ := ih st'' st' log' (by rw [hla, hres])
                obtain ⟨w1, w2, w3, w4, w5, w6, w7⟩ :=
                  wikiInit_ok_caches st _ _ _ _ st'' heq
                exact ⟨⟨hpres.1.trans w1, hpres.2.1.trans w2, hpres.2.2.1.trans w3,
                  hpres.2.2.2.1.trans w4, hpres.2.2.2.2.1.trans w5,
                  hpres.2.2.2.2.2.1.trans w6, hpres.2.2.2.2.2.2.trans w7⟩, hex⟩
            · simp at h
        · -- redirect=False
          split at h <;> simp at h
      · -- no redirect entry
        split at h
        · -- disambiguation
          split at h <;> simp at h
        · -- success
          simp only [Prod.mk.injEq, Except.ok.injEq] at h
          obtain ⟨h1, h2⟩ := h
          subst h1
          refine ⟨⟨rfl, rfl, rfl, rfl, rfl, rfl, rfl⟩,
            st.endpoint, loadQueryParam st, ?_, ?_, ?_, rfl, rfl, rfl⟩
          · simp_all
          · assumption
          · simp_all

/-! ## C1: a failing resolution does expose a partial page identity -/

/-- C1 is right about the intent but the code violates it: constructing a
page whose title redirects, with `redirect=False`, hands the caller the
partially initialized page — `title` set, `page_id` and `url` unset — while
the scheduled `__load` raises `RedirectError("A")` into the discarded
future, where it is silently swallowed.  The failing resolution aborts
nothing the caller sees, and an unresolved title/pageId/url triple is
exposed, contrary to the spec's "resolution errors abort the whole resolve
call (no partial PageIdentity is exposed)". -/
theorem construct_exposes_partial_identity :
    wikiPage redirOracle (some "A") none false false "en" defaultSession 1 =
      .ok ({ title := some "A", original_title := some "",
             session := defaultSession, endpoint := endpointFor "en" },
        .error (.redirectError "A"),
        [.infoQuery (endpointFor "en") (.byTitle "A")]) ∧
    ({ title := some "A", original_title := some "",
       session := defaultSession, endpoint := endpointFor "en" } : WPState).page_id
      = none ∧
    ({ title := some "A", original_title := some "",
       session := defaultSession, endpoint := endpointFor "en" } : WPState).url
      = none := by
  refine ⟨by decide, rfl, rfl⟩

/-! ## Guard-attribute preservation -/

lemma htmlA_preserves_guards (o : Oracle) (st : WPState) :
    (htmlA o st).2.1._revid = st._revid ∧
    (htmlA o st).2.1._parentid = st._parentid := by
  unfold htmlA
  repeat' split
  all_goals exact ⟨rfl, rfl⟩

lemma contentA_preserves_guards (o : Oracle) (st : WPState) :
    (contentA o st).2.1._revid = st._revid ∧
    (contentA o st).2.1._parentid = st._parentid := by
  unfold contentA
  repeat' split
  all_goals exact ⟨rfl, rfl⟩

lemma summaryA_preserves_guards (o : Oracle) (st : WPState) :
    (summaryA o st).2.1._revid = st._revid ∧
    (summaryA o st).2.1._parentid = st._parentid := by
  unfold summaryA
  repeat' split
  all_goals exact ⟨rfl, rfl⟩

lemma revision_idA_preserves_guards (o : Oracle) (st : WPState) :
    (revision_idA o st).2.1._revid = st._revid ∧
    (revision_idA o st).2.1._parentid = st._parentid := by
  unfold revision_idA
  rcases hg : truthyNat st._revid with _ | _
  · rcases hc : contentA o st with ⟨r, st', log⟩
    have hpg := contentA_preserves_guards o st
    rw [hc] at hpg
    simp only [hg, Bool.false_eq_true, if_false, hc]
    exact hpg
  · simp [hg]

lemma parent_idA_preserves_guards (o : Oracle) (st : WPState) :
    (parent_idA o st).2.1._revid = st._revid ∧
    (parent_idA o st).2.1._parentid = st._parentid := by
  unfold parent_idA
  rcases hg : truthyNat st._parentid with _ | _
  · rcases hc : contentA o st with ⟨r, st', log⟩
    have hpg := contentA_preserves_guards o st
    rw [hc] at hpg
    simp only [hg, Bool.false_eq_true, if_false, hc]
    exact hpg
  · simp [hg]

/-! ## `section` is a pure function of the content -/

lemma findFrom_some_ne_nil (hay pat : List Char) (s i : Nat)
    (h : findFrom hay pat s = some i) (hp : pat ≠ []) : hay ≠ [] := by
  intro hnil
  subst hnil
  unfold findFrom at h
  have hpred := List.find?_some h
  simp only [List.drop_nil, Bool.and_eq_true, decide_eq_true_eq] at hpred
  have hpre := List.isPrefixOf_iff_prefix.mp hpred.2
  exact hp (List.prefix_nil.mp hpre)

lemma secList_ne_nil (t : String) : ("== " ++ t ++ " ==").toList ≠ [] := by
  intro h
  have h1 : ("== " ++ t ++ " ==").length = 0 := by
    have h2 : ("== " ++ t ++ " ==").toList.length = 0 := by rw [h]; rfl
    exact h2
  rw [String.length_append, String.length_append] at h1
  have h3 : ("== " : String).length = 3 := rfl
  have h4 : (" ==" : String).length = 3 := rfl
  omega

lemma sectionA_eq (o : Oracle) (st : WPState) (t : String) :
    sectionA o st t = (Except.map (sectionText t) (contentA o st).1,
      (contentA o st).2.1, (contentA o st).2.2) := by
  rcases hc : contentA o st with ⟨c, st1, log1⟩
  cases c with
  | error e => simp [sectionA, hc, Except.map]
  | ok v1 =>
    rcases hf : findFrom v1.toList ("== " ++ t ++ " ==").toList 0 with _ | i
    · simp at hf
      simp [sectionA, sectionText, hc, hf, Except.map]
    · have hne : v1.isEmpty = false := by
        rcases he : v1.isEmpty with _ | _
        · rfl
        · exfalso
          apply findFrom_some_ne_nil v1.toList ("== " ++ t ++ " ==").toList 0 i hf
            (secList_ne_nil t)
          rw [(String.isEmpty_iff v1).mp he]
          rfl
      have hst1 : st1._content = some v1 := (contentA_ok_state o st v1 st1 log1 hc).1
      have hc2 : contentA o st1 = (.ok v1, st1, []) := contentA_cached o st1 v1 hst1 hne
      rcases hff : findFrom v1.toList ['=', '=']
          (i + ("== " ++ t ++ " ==").toList.length) with _ | n
      · simp at hf hff
        simp [sectionA, sectionText, hc, hf, hc2, hff, Except.map]
      · simp at hf hff
        simp [sectionA, sectionText, hc, hf, hc2, hff, Except.map]

lemma sectionA_preserves_guards (o : Oracle) (st : WPState) (t : String) :
    (sectionA o st t).2.1._revid = st._revid ∧
    (sectionA o st t).2.1._parentid = st._parentid := by
  rw [sectionA_eq]
  exact contentA_preserves_guards o st

/-! ## C6: `section` -/


/-- C6: `section(t)` is a pure function of the fetched content — its result
is `sectionText t` applied to whatever `content` returns, and its state and
request log are exactly those of the `content` access (no cache slot beyond
the content fetch is touched); on the example content, `section("History")`
returns `"body text"` and `section("Nonexistent")` returns `None`, with no
request and no state change on a page whose content is cached. -/
theorem section_pure_of_content (o : Oracle) (st : WPState) (t : String) :
    sectionA o st t = (Except.map (sectionText t) (contentA o st).1,
      (contentA o st).2.1, (contentA o st).2.2) ∧
    sectionA demoOracle historySt "History" = (.ok (some "body text"), historySt, []) ∧
    sectionA demoOracle historySt "Nonexistent" = (.ok none, historySt, []) :=
  ⟨sectionA_eq o st t, by decide, by decide⟩

/-! ## C10: the dead cache guards of revision_id / parent_id -/




/-- C10: the `content` fetch stores `_revision_id` / `_parent_id`, while the
cache guards of `revision_id` / `parent_id` test `_revid` / `_parentid`,
which no operation of the program ever writes; consequently a
`revision_id` / `parent_id` access with its guard unset always schedules
the content fetch (its state and request effects are exactly the content
accessor's), and reading `revision_id` / `parent_id` before a content fetch
has populated `_revision_id` / `_parent_id` yields `AttributeError` instead
of a value. -/
theorem revision_guard_attributes_dead (o : Oracle) (st : WPState) :
    (∀ v st1 log1, truthyS st._content = false →
      contentA o st = (.ok v, st1, log1) →
      st1._revision_id.isSome ∧ st1._parent_id.isSome) ∧
    ((htmlA o st).2.1._revid = st._revid ∧ (htmlA o st).2.1._parentid = st._parentid) ∧
    ((contentA o st).2.1._revid = st._revid ∧ (contentA o st).2.1._parentid = st._parentid) ∧
    ((summaryA o st).2.1._revid = st._revid ∧ (summaryA o st).2.1._parentid = st._parentid) ∧
    ((revision_idA o st).2.1._revid = st._revid ∧ (revision_idA o st).2.1._parentid = st._parentid) ∧
    ((parent_idA o st).2.1._revid = st._revid ∧ (parent_idA o st).2.1._parentid = st._parentid) ∧
    (∀ t, (sectionA o st t).2.1._revid = st._revid ∧
      (sectionA o st t).2.1._parentid = st._parentid) ∧
    (∀ tA pA l s st', wikiInit st tA pA l s = .ok st' →
      st'._revid = st._revid ∧ st'._parentid = st._parentid) ∧
    (∀ rp pp fuel st' log, loadAux o rp pp fuel st = (.ok st', log) →
      st'._revid = st._revid ∧ st'._parentid = st._parentid) ∧
    (st._revid = none → (revision_idA o st).2 = (contentA o st).2) ∧
    (st._parentid = none → (parent_idA o st).2 = (contentA o st).2) ∧
    (st._revision_id = none →
      (revision_idA o st).1 = .error (.attributeError "_revision_id")) ∧
    (st._parent_id = none →
      (parent_idA o st).1 = .error (.attributeError "_parent_id")) := by
  refine ⟨?_, htmlA_preserves_guards o st, contentA_preserves_guards o st,
    summaryA_preserves_guards o st, revision_idA_preserves_guards o st,
    parent_idA_preserves_guards o st, fun t => sectionA_preserves_guards o st t,
    ?_, ?_, ?_, ?_, ?_, ?_⟩
  · intro v st1 log1 hfresh hok
    obtain ⟨q, _, _, hst, _⟩ := contentA_fetch_shape o st v st1 log1 hfresh hok
    subst hst
    exact ⟨rfl, rfl⟩
  · intro tA pA l s st' hw
    obtain ⟨_, _, _, _, _, w6, w7⟩ := wikiInit_ok_caches st tA pA l s st' hw
    exact ⟨w6, w7⟩
  · intro rp pp fuel st' log hl
    obtain ⟨⟨_, _, _, _, _, w6, w7⟩, _⟩ := loadAux_ok_inv o rp pp fuel st st' log hl
    exact ⟨w6, w7⟩
  · intro hz
    unfold revision_idA
    rcases hcc : contentA o st with ⟨r, s2, l2⟩
    simp [hz, truthyNat, hcc]
  · intro hz
    unfold parent_idA
    rcases hcc : contentA o st with ⟨r, s2, l2⟩
    simp [hz, truthyNat, hcc]
  · intro hz
    unfold revision_idA
    simp [hz]
  · intro hz
    unfold parent_idA
    simp [hz]

/-- Witness for C10: concrete instances of each guarded part on the demo
server (side-effect caching, scheduled fetch, and the attribute errors on
a fresh page). -/
theorem revision_guard_attributes_dead_witness :
    (bananaContentFetched._revision_id.isSome ∧
      bananaContentFetched._parent_id.isSome) ∧
    (freshB9._revid = freshA._revid ∧ freshB9._parentid = freshA._parentid) ∧
    (freshALoaded._revid = freshA._revid ∧ freshALoaded._parentid = freshA._parentid) ∧
    (revision_idA demoOracle freshA).2 = (contentA demoOracle freshA).2 ∧
    (parent_idA demoOracle freshA).2 = (contentA demoOracle freshA).2 ∧
    (revision_idA demoOracle freshA).1 = .error (.attributeError "_revision_id") ∧
    (parent_idA demoOracle freshA).1 = .error (.attributeError "_parent_id") :=
  ⟨(revision_guard_attributes_dead demoOracle bananaResolved).1 "CONTENT"
      bananaContentFetched [.extractsRevisions (endpointFor "en") (.byTitle "Banana")]
      rfl (by decide),
   (revision_guard_attributes_dead demoOracle freshA).2.2.2.2.2.2.2.1
      (some "B") none "fr" 9 freshB9 (by decide),
   (revision_guard_attributes_dead demoOracle freshA).2.2.2.2.2.2.2.2.1
      true false 1 freshALoaded
      [.infoQuery (endpointFor "en") (.byTitle "A")] (by decide),
   (revision_guard_attributes_dead demoOracle freshA).2.2.2.2.2.2.2.2.2.1 rfl,
   (revision_guard_attributes_dead demoOracle freshA).2.2.2.2.2.2.2.2.2.2.1 rfl,
   (revision_guard_attributes_dead demoOracle freshA).2.2.2.2.2.2.2.2.2.2.2.1 rfl,
   (revision_guard_attributes_dead demoOracle freshA).2.2.2.2.2.2.2.2.2.2.2.2 rfl⟩
